import Mathlib

/-!
# nfr: scope groups and the executor's sending loop

A shallow embedding of `executor/executor.go` and of the scope-group
decision exercised by `groups/groups_test.go`.

* Go's `net.IP`, `net.IPNet.Contains` and `net.ParseCIDR` (IPv4 text) are
  library code; they are embedded as far as the program uses them.
* `groups/groups.go`, `dns.PacketBuffer`, `dns.Writer` and `client.Client`
  are not among the sources; each definition that stands for them says so.
* Calls of the logger change nothing the executor reads and are left out.
* Goroutines are interleaved at the level of whole `sendPackets` calls, the
  schedule being part of `World`; `sendPacketsWith` also lets other
  goroutines write to the buffer between the two critical sections.
-/

namespace Nfr

/-! ## Addresses and networks (Go package `net`) -/

/-- An address of Go's `net.IP`: the 4-byte form or the 16-byte form, held as
the big-endian number of its bytes. -/
inductive IP where
  | v4 (a : Nat)
  | v6 (a : Nat)
deriving DecidableEq, Repr

/-- The 16-byte prefix of an IPv4-mapped address, `::ffff:0:0`, divided by
`2^32`. -/
def v4InV6Prefix : Nat := 0xffff

/-- Go `net.IPv4(a, b, c, d)`: the 16-byte (IPv4-mapped) form of `a.b.c.d`;
the arguments are bytes. -/
def IPv4 (a b c d : Nat) : IP :=
  IP.v6 (v4InV6Prefix * 2 ^ 32
    + ((a % 256) * 2 ^ 24 + (b % 256) * 2 ^ 16 + (c % 256) * 2 ^ 8 + d % 256))

/-- Go `IP.To4`: the 4-byte value of an IPv4 address in either form, `none`
(Go `nil`) for any other address. -/
def IP.To4 : IP → Option Nat
  | IP.v4 a => some (a % 2 ^ 32)
  | IP.v6 a =>
    if (a % 2 ^ 128) / 2 ^ 32 = v4InV6Prefix then some (a % 2 ^ 32) else none

/-- Go `net.IPNet` with a canonical mask: the network address and the number
of leading one bits of the mask, counted in the address's own form. -/
structure IPNet where
  IP : IP
  ones : Nat
deriving DecidableEq, Repr

/-- Go `networkNumberAndMask`: the width in bits, the network number and the
prefix length used for matching. An IPv4 network given in 16-byte form is
matched in 4-byte form with the last 4 bytes of its mask, that is with the
mask bits beyond the first 96. -/
def networkNumberAndMask (n : IPNet) : Option (Nat × Nat × Nat) :=
  match n.IP with
  | IP.v4 a => some (32, a % 2 ^ 32, min n.ones 32)
  | IP.v6 a =>
    match (IP.v6 a).To4 with
    | some x => some (32, x, min n.ones 128 - 96)
    | none => some (128, a % 2 ^ 128, min n.ones 128)

/-- Go `IPNet.Contains`: the address, reduced to 4-byte form when it is an
IPv4 address, has the network's length and agrees with the network number on
the masked bits. -/
def IPNet.Contains (n : IPNet) (ip : Nfr.IP) : Bool :=
  match networkNumberAndMask n with
  | none => false
  | some (w, nn, ones) =>
    match ip.To4, ip with
    | some x, _ => w == 32 && nn / 2 ^ (32 - ones) == x / 2 ^ (32 - ones)
    | none, IP.v6 a =>
      w == 128 && nn / 2 ^ (128 - ones) == (a % 2 ^ 128) / 2 ^ (128 - ones)
    | none, IP.v4 _ => false

/-- Value of a decimal digit. -/
def digitVal (c : Char) : Option Nat :=
  if c.isDigit then some (c.toNat - 48) else none

/-- Decimal number written by a non-empty list of digits. -/
def parseDecimal (cs : List Char) : Option Nat :=
  if cs.isEmpty then none
  else cs.foldl (fun acc c => acc.bind fun n => (digitVal c).map fun d => 10 * n + d) (some 0)

/-- Split a list of characters at every occurrence of `sep`. -/
def splitAt (sep : Char) : List Char → List (List Char)
  | [] => [[]]
  | c :: cs =>
    if c = sep then [] :: splitAt sep cs
    else
      match splitAt sep cs with
      | [] => [[c]]
      | f :: fs => (c :: f) :: fs

/-- Go `net.ParseCIDR` on IPv4 text `a.b.c.d/n`: the network `a.b.c.d`
masked to `n` bits, in 4-byte form. Any other text is an error here (`none`);
IPv6 text is outside this fragment of the library. -/
def ParseCIDR (s : String) : Option IPNet :=
  match splitAt '/' s.data with
  | [addr, len] =>
    match (splitAt '.' addr).map parseDecimal, parseDecimal len with
    | [some a, some b, some c, some d], some n =>
      if a < 256 ∧ b < 256 ∧ c < 256 ∧ d < 256 ∧ n ≤ 32 then
        let x := a * 2 ^ 24 + b * 2 ^ 16 + c * 2 ^ 8 + d
        some { IP := IP.v4 (x / 2 ^ (32 - n) * 2 ^ (32 - n)), ones := n }
      else none
    | _, _ => none
  | _ => none

/-! ## Scope groups (package `groups`) -/

/-- The exported `groups.Group`, as the test and `createGroups` build it:
a name, include and exclude networks in CIDR text, and excluded domains. -/
structure Group where
  Name : String := ""
  Includes : List String := []
  Excludes : List String := []
  Domains : List String := []
deriving DecidableEq, Repr

/-- Modelled from the spec: the parsed form of a group kept inside `Groups`
(`groups/groups.go` is not among the sources). -/
structure group where
  name : String
  includes : List IPNet
  excludes : List IPNet
  domains : List String
deriving DecidableEq, Repr

/-- Modelled from the spec: the GroupSet of section 3, an ordered collection
of groups (`groups/groups.go` is not among the sources). -/
structure Groups where
  groups : List group
deriving DecidableEq, Repr

/-- Errors of group-set construction named by section 4.1 of the spec. -/
inductive GroupsError where
  | InvalidCIDR (cidr : String)
  | DuplicateGroupName (name : String)
deriving DecidableEq, Repr

/-- Modelled from the spec: `groups.New`, a group set with no group
(`groups/groups.go` is not among the sources). -/
def New : Groups := { groups := [] }

/-- Parse every CIDR of a list, failing on the first that does not parse. -/
def parseCIDRs : List String → Except GroupsError (List IPNet)
  | [] => Except.ok []
  | s :: rest =>
    match ParseCIDR s with
    | none => Except.error (GroupsError.InvalidCIDR s)
    | some n =>
      match parseCIDRs rest with
      | Except.ok ns => Except.ok (n :: ns)
      | Except.error err => Except.error err

/-- Modelled from the spec: `Groups.Add` (`groups/groups.go` is not among the
sources). Section 3: group names are unique and each CIDR parses at
construction, otherwise construction fails; section 4.1 names the two
errors. The group is appended, the set being ordered. -/
def Groups.Add (gs : Groups) (g : Group) : Except GroupsError Groups :=
  if gs.groups.any (fun h => h.name == g.Name) then
    Except.error (GroupsError.DuplicateGroupName g.Name)
  else
    match parseCIDRs g.Includes, parseCIDRs g.Excludes with
    | Except.ok incs, Except.ok excs =>
      Except.ok { groups := gs.groups ++
        [{ name := g.Name, includes := incs, excludes := excs, domains := g.Domains }] }
    | Except.error err, _ => Except.error err
    | _, Except.error err => Except.error err

/-- Canonical form of a domain name (section 3 and glossary of the spec):
lowercase, without the trailing dot. -/
def canonical (d : String) : String :=
  let cs := d.data.map Char.toLower
  String.mk (if cs.getLast? = some '.' then cs.dropLast else cs)

/-- The source IP matches some include CIDR of the group. -/
def group.included (G : group) (ip : IP) : Bool :=
  G.includes.any (fun n => n.Contains ip)

/-- The source IP matches some exclude CIDR of the group. -/
def group.excluded (G : group) (ip : IP) : Bool :=
  G.excludes.any (fun n => n.Contains ip)

/-- The domain is in the group's domain list; section 4.1: the comparison is
case-insensitive and trailing-dot-insensitive. -/
def group.hasDomain (G : group) (domain : String) : Bool :=
  G.domains.any (fun d => canonical d == canonical domain)

/-- Condition of section 4.1 on one group: the source IP is in the group's
includes, not in its excludes, and the domain is not in its domain list. -/
def group.allows (G : group) (domain : String) (ip : IP) : Bool :=
  G.included ip && !G.excluded ip && !G.hasDomain domain

/-- Modelled from the spec: `Groups.IsDNSQueryWhitelisted`
(`groups/groups.go` is not among the sources; its test is). Section 4.1: a
nil or empty group set allows everything; otherwise a query is allowed iff
there is a group that includes the source IP, does not exclude it and does
not list the domain, and the name returned is that of the first such
group. -/
def IsDNSQueryWhitelisted (g : Option Groups) (domain : String) (ip : IP) : String × Bool :=
  match g with
  | none => ("", true)
  | some gs =>
    if gs.groups.isEmpty then ("", true)
    else
      match gs.groups.find? (fun G => G.allows domain ip) with
      | some G => (G.name, true)
      | none => ("", false)

/-! ## The table of `TestGroups` and `TestEmptyGroup` -/

/-- One entry of the table `testsGroups` of `TestGroups`. -/
structure GroupsCase where
  name : String
  groups : List Group
  domains : List String
  ips : List IP
  expected : List Bool

/-- The table `testsGroups` of `groups_test.go`. -/
def testsGroups : List GroupsCase :=
  [ { name := "allow any ips"
      groups := [{ Name := "allow any", Includes := ["0.0.0.0/0"] }]
      domains := ["a"]
      ips := [IPv4 10 0 0 0]
      expected := [true] },
    { name := "allow private networks"
      groups := [{ Name := "private network 1", Includes := ["10.0.0.0/8"] },
                 { Name := "private network 2", Includes := ["192.168.0.0/16"] }]
      domains := ["a", "a", "a"]
      ips := [IPv4 10 0 0 0, IPv4 192 168 0 0, IPv4 11 0 0 0]
      expected := [true, true, false] },
    { name := "allow private networks with excludes"
      groups := [{ Name := "private network 1", Includes := ["10.0.0.0/8"],
                   Excludes := ["10.1.0.0/16"] },
                 { Name := "private network 2", Includes := ["192.168.0.0/16"],
                   Excludes := ["10.2.0.0/16"] }]
      domains := ["a", "a", "a", "a"]
      ips := [IPv4 10 0 0 0, IPv4 192 168 0 0, IPv4 10 1 0 0, IPv4 10 2 0 0]
      expected := [true, true, false, true] },
    { name := "include in one group then exclude in next group"
      groups := [{ Name := "private network 1", Includes := ["10.0.0.0/8"] },
                 { Name := "private network 2", Includes := ["10.1.0.0/16"],
                   Excludes := ["10.1.1.0/24"] }]
      domains := ["a", "a"]
      ips := [IPv4 10 1 0 0, IPv4 10 1 1 0]
      expected := [true, false] },
    { name := "exclude domain in multiple groups"
      groups := [{ Name := "private network 1", Includes := ["10.0.0.0/16"],
                   Domains := ["a"] },
                 { Name := "private network 2", Includes := ["10.1.0.0/16"],
                   Domains := ["b"] }]
      domains := ["a", "b", "a", "b"]
      ips := [IPv4 10 0 0 0, IPv4 10 0 0 0, IPv4 10 1 0 0, IPv4 10 1 0 0]
      expected := [false, true, true, false] } ]

/-- Add the groups of a test case to `groups.New()`, in order; an error of
`Add` is the test's `t.Fatal`. -/
def addAll (gs : Groups) : List Group → Except GroupsError Groups
  | [] => Except.ok gs
  | g :: rest =>
    match gs.Add g with
    | Except.ok gs1 => addAll gs1 rest
    | Except.error err => Except.error err

/-- The loop of `TestGroups` for a decision procedure `f` in place of
`IsDNSQueryWhitelisted`: `true` when no `t.Fatal` is reached. -/
def TestGroups (f : Option Groups → String → IP → String × Bool) : Bool :=
  testsGroups.all fun tt =>
    match addAll New tt.groups with
    | Except.error _ => false
    | Except.ok g =>
      (tt.domains.zip (tt.ips.zip tt.expected)).all fun q =>
        (f (some g) q.1 q.2.1).2 == q.2.2

/-- The checks of `TestEmptyGroup` for a decision procedure `f`: a nil group
set and a new one both whitelist `a` from `10.0.0.0`. -/
def TestEmptyGroup (f : Option Groups → String → IP → String × Bool) : Bool :=
  (f none "a" (IPv4 10 0 0 0)).2 && (f (some New) "a" (IPv4 10 0 0 0)).2

/-- The group set built by the case `include in one group then exclude in
next group` of `TestGroups`: `10.0.0.0/8`, then `10.1.0.0/16` without
`10.1.1.0/24`. -/
def includeThenExclude : Groups :=
  { groups :=
      [ { name := "private network 1",
          includes := [{ IP := IP.v4 (10 * 2 ^ 24), ones := 8 }],
          excludes := [], domains := [] },
        { name := "private network 2",
          includes := [{ IP := IP.v4 (10 * 2 ^ 24 + 1 * 2 ^ 16), ones := 16 }],
          excludes := [{ IP := IP.v4 (10 * 2 ^ 24 + 1 * 2 ^ 16 + 1 * 2 ^ 8), ones := 24 }],
          domains := [] } ] }

/-- The source IP is inside some include CIDR of the group, inside no exclude
CIDR of it, and the domain is not in its domain list. -/
def group.inScope (G : group) (domain : String) (ip : IP) : Prop :=
  (∃ n ∈ G.includes, n.Contains ip = true) ∧ (∀ n ∈ G.excludes, n.Contains ip = false) ∧
    ∀ d ∈ G.domains, canonical d ≠ canonical domain

/-- The queries `TestGroups` makes: for every case of the table whose groups
are added without error, the group set built, and each domain and source IP
with the result the test expects. -/
def testQueries : List (Groups × String × IP × Bool) :=
  testsGroups.flatMap fun tt =>
    match addAll New tt.groups with
    | Except.error _ => []
    | Except.ok g =>
      (tt.domains.zip (tt.ips.zip tt.expected)).map fun q => (g, q.1, q.2.1, q.2.2)

/-- The second query of the case `include in one group then exclude in next
group` of `TestGroups`: the domain `a` from `10.1.1.0`, expected to be
denied. -/
def deniedQuery : Groups × String × IP × Bool :=
  (includeThenExclude, "a", IPv4 10 1 1 0, false)

/-- A decision procedure that passes `TestGroups`, to show that one exists:
`IsDNSQueryWhitelisted` with the result of `deniedQuery` set to what the test
expects. It stands for no code of the repository. -/
def testedRule (g : Option Groups) (domain : String) (ip : IP) : String × Bool :=
  if g = some deniedQuery.1 ∧ domain = deniedQuery.2.1 ∧ ip = deniedQuery.2.2.1 then
    ("private network 2", deniedQuery.2.2.2)
  else IsDNSQueryWhitelisted g domain ip

/-! ## Collaborators of the executor (packages `dns`, `client`, `config`) -/

/-- Modelled from the spec: `dns.Packet`, the DnsPacket of section 3 (package
`dns` is not among the sources); the executor reads `FQDN` and `SourceIP`. -/
structure Packet where
  Timestamp : Nat
  SourceIP : IP
  DestinationIP : IP
  FQDN : String
  RecordType : String
  Protocol : String
deriving DecidableEq, Repr

/-- Modelled from the spec: one element of `QueriesRequest.queries`
(section 6; package `client` is not among the sources). -/
structure Query where
  ts : Nat
  src_ip : IP
  dst_ip : IP
  fqdn : String
  qtype : String
  proto : String
deriving DecidableEq, Repr

/-- Modelled from the spec: `Packet.ToRequestQuery`, the record of section 6
for one packet (package `dns` is not among the sources). -/
def Packet.ToRequestQuery (p : Packet) : Query :=
  { ts := p.Timestamp, src_ip := p.SourceIP, dst_ip := p.DestinationIP,
    fqdn := p.FQDN, qtype := p.RecordType, proto := p.Protocol }

/-- Modelled from the spec: `client.QueriesRequest`, the ordered list of
queries of section 6 (package `client` is not among the sources). -/
structure QueriesRequest where
  queries : List Query
deriving DecidableEq, Repr

/-- Modelled from the spec: `client.NewQueriesRequest`, a request without
queries (package `client` is not among the sources). -/
def NewQueriesRequest : QueriesRequest := { queries := [] }

/-- Modelled from the spec: `QueriesRequest.AddQuery`, which appends one
query (package `client` is not among the sources). -/
def QueriesRequest.AddQuery (qr : QueriesRequest) (q : Query) : QueriesRequest :=
  { queries := qr.queries ++ [q] }

/-- Modelled from the spec: the BatchResponse of section 3, the reply of
`client.Client.Queries` (package `client` is not among the sources). -/
structure QueriesResponse where
  Received : Int
  Accepted : Int
  Rejected : List (String × Int)
deriving DecidableEq, Repr

/-- Modelled from the spec: `dns.PacketBuffer`, the PacketBuffer of section
4.2 (package `dns` is not among the sources): an ordered sequence of
packets. -/
structure PacketBuffer where
  packets : List Packet
deriving DecidableEq, Repr

/-- Modelled from the spec: `dns.NewPacketBuffer`, an empty buffer. -/
def NewPacketBuffer : PacketBuffer := { packets := [] }

/-- Modelled from the spec: `PacketBuffer.Write` (section 4.2): appends the
packets, all of them admitted, and returns the number admitted and the
resulting length, with the buffer after the call. -/
def PacketBuffer.Write (b : PacketBuffer) (ps : List Packet) : (Nat × Nat) × PacketBuffer :=
  ((ps.length, (b.packets ++ ps).length), { packets := b.packets ++ ps })

/-- Modelled from the spec: `PacketBuffer.Packets`, the drain of section 4.2:
returns the current contents and clears the buffer. -/
def PacketBuffer.Packets (b : PacketBuffer) : List Packet × PacketBuffer :=
  (b.packets, { packets := [] })

/-- Modelled from the spec: `dns.Writer`, the spill writer (package `dns` is
not among the sources): the file it appends to, the batches handed to
`Write` so far and the records written by the calls that succeeded. -/
structure Writer where
  file : String
  handed : List (List Packet)
  lines : List Packet
deriving DecidableEq, Repr

/-- Modelled from the spec: the writer `dns.NewWriter` returns for a file,
before any call of `Write`. -/
def openWriter (file : String) : Writer :=
  { file := file, handed := [], lines := [] }

/-- The client of the executor with the record of its `Queries` calls: every
request posted, and those answered without error. -/
structure Client where
  posted : List QueriesRequest
  delivered : List QueriesRequest
deriving DecidableEq, Repr

/-- The packet source held in `Executor.sniffer`: the packets its channel
yields before it is closed. -/
structure Sniffer where
  Packets : List Packet
deriving DecidableEq, Repr

/-- One entry of `config.ScopeConfig.Groups`, the part `Exclude`. -/
structure ExcludeConfig where
  Networks : List String := []
  Domains : List String := []
deriving DecidableEq, Repr

/-- One entry of `config.ScopeConfig.Groups`. -/
structure GroupConfig where
  Networks : List String := []
  Exclude : ExcludeConfig := {}
deriving DecidableEq, Repr

/-- The part `Network` of `config.Config`. -/
structure NetworkConfig where
  Interface : String := ""
  Port : Int := 53
  Protocols : List String := []
deriving DecidableEq, Repr

/-- The part `Queries.Failed` of `config.Config`. -/
structure FailedConfig where
  File : String := ""
deriving DecidableEq, Repr

/-- The part `Queries` of `config.Config`. -/
structure QueriesConfig where
  FlushInterval : Int := 0
  BufferSize : Int := 0
  Failed : FailedConfig := {}
deriving DecidableEq, Repr

/-- The part `Events` of `config.Config`. -/
structure EventsConfig where
  File : String := ""
  PollInterval : Nat := 0
deriving DecidableEq, Repr

/-- The part `Data` of `config.Config`. -/
structure DataConfig where
  File : String := ""
deriving DecidableEq, Repr

/-- The part `ScopeConfig` of `config.Config`; the Go map of groups is the
list of its entries, in the order the `range` loop meets them. -/
structure ScopeConfig where
  Groups : List (String × GroupConfig) := []
deriving DecidableEq, Repr

/-- The fields of `config.Config` the executor reads. -/
structure Config where
  Network : NetworkConfig := {}
  Queries : QueriesConfig := {}
  Events : EventsConfig := {}
  Data : DataConfig := {}
  ScopeConfig : ScopeConfig := {}
deriving DecidableEq, Repr

/-- What the collaborators outside the executor answer. The number given to
`Queries` and `Write` is the number of earlier calls, so that the same batch
can fail once and succeed later. -/
structure World where
  /-- Reply of `client.Client.Queries`. -/
  Queries : Nat → QueriesRequest → Except String QueriesResponse
  /-- Error of `dns.Writer.Write`, `none` for a nil error. -/
  Write : Nat → List Packet → Option String
  /-- Error of `dns.NewWriter`, `none` for a nil error. -/
  NewWriter : String → Option String
  /-- Error of `events.NewJSONFileWriter`, `none` for a nil error. -/
  NewJSONFileWriter : String → Option String
  /-- Error of `Poller.SetFollowDataFile`, `none` for a nil error. -/
  SetFollowDataFile : String → Option String
  /-- Error of `net.InterfaceByName`: the field `Err` of its `*net.OpError`,
  `none` for a nil error. -/
  InterfaceByName : String → Option String
  /-- Result of `sniffer.NewLivePcapSniffer`. -/
  NewLivePcapSniffer : String → List String → Int → Except String Sniffer
  /-- Result of `sniffer.NewOfflinePcapSniffer`. -/
  NewOfflinePcapSniffer : String → List String → Int → Except String Sniffer
  /-- Result of `bro.NewReader`. -/
  broNewReader : String → List String → Int → Except String Sniffer
  /-- Result of `suricata.NewReader`. -/
  suricataNewReader : String → List String → Int → Except String Sniffer
  /-- Number of `sendPackets` calls of other goroutines that run between
  iteration `i` of the loop of `do` and the next one. -/
  sched : Nat → Nat

/-! ## The executor (`executor/executor.go`) -/

/-- The struct `Executor`. The events poller and writer are kept as the files
they work on; `ticker`, `spawned` and `asyncRuns` record the goroutines:
whether `startPacketSender` runs, how many times `go e.sendPackets()` was
executed and how many `sendPackets` calls of other goroutines have run. -/
structure Executor where
  c : Client
  cfg : Config
  eventsPoller : String
  eventsWriter : String
  groups : Option Groups
  buf : PacketBuffer
  dnsWriter : Option Writer
  sniffer : Option Sniffer
  ticker : Bool
  spawned : Nat
  asyncRuns : Nat
deriving DecidableEq, Repr

/-- How a call ends: it returns a nil error, returns an error, or panics. -/
inductive Exit where
  | nil
  | err (msg : String)
  | panic
deriving DecidableEq, Repr

/-- The loop of `createGroups` over the configured groups. -/
def createGroupsLoop (gs : Groups) : List (String × GroupConfig) → Except GroupsError Groups
  | [] => Except.ok gs
  | (name, grp) :: rest =>
    let g : Group :=
      { Name := name, Includes := grp.Networks, Excludes := grp.Exclude.Networks,
        Domains := grp.Exclude.Domains }
    match gs.Add g with
    | Except.error err => Except.error err
    | Except.ok gs1 => createGroupsLoop gs1 rest

/-- The function `createGroups`: nil for no configured group, otherwise a new
group set with every configured group added, or the first error of `Add`. -/
def createGroups (cfg : Config) : Except GroupsError (Option Groups) :=
  if cfg.ScopeConfig.Groups.length = 0 then Except.ok none
  else
    match createGroupsLoop New cfg.ScopeConfig.Groups with
    | Except.error err => Except.error err
    | Except.ok gs => Except.ok (some gs)

/-- The function `dnsPacketsToQueries`: a new request with the query of each
packet added, in index order. -/
def dnsPacketsToQueries (packets : List Packet) : QueriesRequest :=
  packets.foldl (fun qr p => qr.AddQuery p.ToRequestQuery) NewQueriesRequest

/-- The function `New`: the group set, the events writer and the poller are
built, each error returned; the executor starts with a new packet buffer and
no spill writer, no sniffer and no goroutine. -/
def Executor.New (w : World) (c : Client) (cfg : Config) : Except String Executor :=
  match createGroups cfg with
  | Except.error (GroupsError.InvalidCIDR s) => Except.error s
  | Except.error (GroupsError.DuplicateGroupName s) => Except.error s
  | Except.ok groups =>
    match w.NewJSONFileWriter cfg.Events.File with
    | some err => Except.error err
    | none =>
      match w.SetFollowDataFile cfg.Data.File with
      | some err => Except.error err
      | none =>
        Except.ok
          { c := c, cfg := cfg, eventsWriter := cfg.Events.File,
            eventsPoller := cfg.Data.File, groups := groups, buf := NewPacketBuffer,
            dnsWriter := none, sniffer := none, ticker := false, spawned := 0,
            asyncRuns := 0 }

/-- The method `sendPackets`, with the packets `concurrent` that other
goroutines write to the buffer between its two critical sections (none when
no other goroutine writes). The buffer is drained; an empty batch ends the
call. The batch is posted; on an API error it is handed to the spill writer
when there is one, and written back to the buffer when there is none or its
write fails. -/
def Executor.sendPacketsWith (w : World) (concurrent : List Packet) (e : Executor) : Executor :=
  let drained := e.buf.Packets
  let packets := drained.1
  let e0 : Executor := { e with buf := drained.2 }
  if packets.length = 0 then e0
  else
    let req := dnsPacketsToQueries packets
    let reply := w.Queries e0.c.posted.length req
    let e1 : Executor :=
      { e0 with c := { e0.c with posted := e0.c.posted ++ [req] },
                buf := (e0.buf.Write concurrent).2 }
    match reply with
    | Except.error _ =>
      let rebuffer (x : Executor) : Executor := { x with buf := (x.buf.Write packets).2 }
      match e1.dnsWriter with
      | some wr =>
        let e2 : Executor :=
          { e1 with dnsWriter := some { wr with handed := wr.handed ++ [packets] } }
        match w.Write wr.handed.length packets with
        | some _ => rebuffer e2
        | none =>
          { e1 with dnsWriter := some { wr with handed := wr.handed ++ [packets],
                                                lines := wr.lines ++ packets } }
      | none => rebuffer e1
    | Except.ok _ =>
      { e1 with c := { e1.c with delivered := e1.c.delivered ++ [req] } }

/-- The method `sendPackets` when no other goroutine writes to the buffer
while it runs. -/
def Executor.sendPackets (w : World) (e : Executor) : Executor :=
  e.sendPacketsWith w []

/-- The method `shouldSendPacket`: true without scope groups, otherwise the
decision of `IsDNSQueryWhitelisted` on the packet's domain and source IP. -/
def Executor.shouldSendPacket (e : Executor) (p : Packet) : Bool :=
  match e.groups with
  | none => true
  | some gs => (IsDNSQueryWhitelisted (some gs) p.FQDN p.SourceIP).2

/-- The write of one iteration of the loop of `do`: the values `added` and
`l` returned by `e.buf.Write(packet)` and the executor after it. -/
def Executor.writePacket (e : Executor) (packet : Packet) : (Nat × Nat) × Executor :=
  let r := e.buf.Write [packet]
  (r.1, { e with buf := r.2 })

/-- One iteration of the loop of `do`, with whether it reached
`go e.sendPackets()`: a packet that should not be sent is skipped; otherwise
it is written to the buffer, and `sendPackets` is started in a goroutine
unless the length returned by the write is below `Queries.BufferSize`. -/
def Executor.doIter (e : Executor) (packet : Packet) : Executor × Bool :=
  if !e.shouldSendPacket packet then (e, false)
  else
    let r := e.writePacket packet
    let l := r.1.2
    if (l : Int) < e.cfg.Queries.BufferSize then (r.2, false)
    else ({ r.2 with spawned := r.2.spawned + 1 }, true)

/-- Run `k` calls of `sendPackets` made by other goroutines. -/
def Executor.runConcurrent (w : World) : Nat → Executor → Executor
  | 0, e => e
  | k + 1, e =>
    Executor.runConcurrent w k { e.sendPackets w with asyncRuns := e.asyncRuns + 1 }

/-- Number of `sendPackets` calls of other goroutines that run after
iteration `i`: what the schedule says, and no more than the goroutines
started and not yet run when the ticker of `startPacketSender` is not
running. -/
def Executor.concurrentRuns (w : World) (e : Executor) (i : Nat) : Nat :=
  if e.ticker then w.sched i else min (w.sched i) (e.spawned - e.asyncRuns)

/-- The loop of `do` from iteration `i` on, over the packets the sniffer
still yields. -/
def Executor.doLoop (w : World) : Executor → Nat → List Packet → Executor
  | e, _, [] => e
  | e, i, packet :: rest =>
    let e1 := (e.doIter packet).1
    Executor.doLoop w (Executor.runConcurrent w (e1.concurrentRuns w i) e1) (i + 1) rest

/-- The method `do`: the loop over the sniffer's packets, then `sendPackets`
once more, then a nil error. Without a sniffer the call of `Packets` on the
nil interface panics. -/
def Executor.do_ (w : World) (e : Executor) : Executor × Exit :=
  match e.sniffer with
  | none => (e, Exit.panic)
  | some s => ((e.doLoop w 0 s.Packets).sendPackets w, Exit.nil)

/-- The method `Start`: the interface is looked up, its error wrapped in the
message of `fmt.Errorf`, and the live sniffer built; the spill writer is
built when `Queries.Failed.File` is not empty; the goroutines are started, of
which the ticker of `startPacketSender` calls `sendPackets`; then `do` runs.
With a flush interval that is not positive `time.NewTicker` panics in its
goroutine, which ends the process. The signal handler and the events poller
are not followed: the poller never touches the buffer, and the handler only
on an interrupt, which ends the process. -/
def Executor.Start (w : World) (e : Executor) : Executor × Exit :=
  match w.InterfaceByName e.cfg.Network.Interface with
  | some err =>
    (e, Exit.err ("can't open " ++ e.cfg.Network.Interface ++ " interface: " ++ err))
  | none =>
    match w.NewLivePcapSniffer e.cfg.Network.Interface e.cfg.Network.Protocols
        e.cfg.Network.Port with
    | Except.error err => (e, Exit.err err)
    | Except.ok sn =>
      let e1 : Executor := { e with sniffer := some sn }
      let built : Executor × Option String :=
        if e1.cfg.Queries.Failed.File ≠ "" then
          match w.NewWriter e1.cfg.Queries.Failed.File with
          | some err => (e1, some err)
          | none => ({ e1 with dnsWriter := some (openWriter e1.cfg.Queries.Failed.File) }, none)
        else (e1, none)
      match built.2 with
      | some err => (built.1, Exit.err err)
      | none =>
        if e.cfg.Queries.FlushInterval ≤ 0 then (built.1, Exit.panic)
        else Executor.do_ w { built.1 with ticker := true }

/-- The method `Send`: the sniffer is the reader of the given file format,
its error returned; then `do` runs. A format other than `bro`, `pcap` and
`suricata` leaves the sniffer as it was. -/
def Executor.Send (w : World) (e : Executor) (file : String) (fileFomrat : String) :
    Executor × Exit :=
  let opened : Except String (Option Sniffer) :=
    if fileFomrat = "bro" then
      (w.broNewReader file e.cfg.Network.Protocols e.cfg.Network.Port).map some
    else if fileFomrat = "pcap" then
      (w.NewOfflinePcapSniffer file e.cfg.Network.Protocols e.cfg.Network.Port).map some
    else if fileFomrat = "suricata" then
      (w.suricataNewReader file e.cfg.Network.Protocols e.cfg.Network.Port).map some
    else Except.ok e.sniffer
  match opened with
  | Except.error err => ({ e with sniffer := none }, Exit.err err)
  | Except.ok sn => Executor.do_ w { e with sniffer := sn }

/-! ## Inputs of the examples -/

/-- A packet of the examples: the query number `n`, for `example.com`, from
`10.0.0.n`. -/
def pkt (n : Nat) : Packet :=
  { Timestamp := n, SourceIP := IPv4 10 0 0 n, DestinationIP := IPv4 8 8 8 8,
    FQDN := "example.com", RecordType := "A", Protocol := "udp" }

/-- A world of the examples: the API answers every call with a success or
with an error, the spill writer writes every batch or fails on every batch,
every file and interface opens, every source yields `src`, and the goroutines
started run `runs` calls of `sendPackets` after each iteration. -/
def world (apiOk : Bool) (writeOk : Bool) (src : List Packet) (runs : Nat) : World :=
  { Queries := fun _ req =>
      if apiOk then
        Except.ok { Received := req.queries.length, Accepted := req.queries.length,
                    Rejected := [] }
      else Except.error "500 Internal Server Error"
    Write := fun _ _ => if writeOk then none else some "no space left on device"
    NewWriter := fun _ => none
    NewJSONFileWriter := fun _ => none
    SetFollowDataFile := fun _ => none
    InterfaceByName := fun _ => none
    NewLivePcapSniffer := fun _ _ _ => Except.ok { Packets := src }
    NewOfflinePcapSniffer := fun _ _ _ => Except.ok { Packets := src }
    broNewReader := fun _ _ _ => Except.ok { Packets := src }
    suricataNewReader := fun _ _ _ => Except.ok { Packets := src }
    sched := fun _ => runs }

/-- A configuration of the examples: no scope group, the given buffer size
and spill path. -/
def config (bufferSize : Int) (failedFile : String) : Config :=
  { Network := { Interface := "eth0", Port := 53, Protocols := ["udp"] },
    Queries := { FlushInterval := 30, BufferSize := bufferSize,
                 Failed := { File := failedFile } },
    Events := { File := "events.json", PollInterval := 30 },
    Data := { File := "follow.data" } }

/-- An executor of the examples, as `New` leaves it, with the given packets
in its buffer and the given spill writer. -/
def executor (cfg : Config) (buffered : List Packet) (dnsWriter : Option Writer) : Executor :=
  { c := { posted := [], delivered := [] }, cfg := cfg, eventsPoller := cfg.Data.File,
    eventsWriter := cfg.Events.File, groups := none, buf := { packets := buffered },
    dnsWriter := dnsWriter, sniffer := none, ticker := false, spawned := 0, asyncRuns := 0 }

/-- The five packets of the examples. -/
def fivePackets : List Packet := [pkt 1, pkt 2, pkt 3, pkt 4, pkt 5]

/-- An executor of the examples with the five packets buffered and a spill
writer on `failed.json`. -/
def spillExecutor : Executor :=
  executor (config 10 "failed.json") fivePackets (some (openWriter "failed.json"))

end Nfr

namespace Nfr

/-! ## Facts about the scope groups -/

theorem group.allows_iff (G : group) (domain : String) (ip : IP) :
    G.allows domain ip = true ↔ G.inScope domain ip := by
  simp [group.allows, group.inScope, group.included, group.excluded, group.hasDomain, and_assoc]

/-- The decision of `IsDNSQueryWhitelisted` on a group set with a group is
that of section 4.1: allowed iff some group includes the source IP, does not
exclude it and does not list the domain. -/
theorem IsDNSQueryWhitelisted_some (gs : Groups) (domain : String) (ip : IP)
    (hne : gs.groups ≠ []) :
    (IsDNSQueryWhitelisted (some gs) domain ip).2 = true ↔
      ∃ G ∈ gs.groups, G.inScope domain ip := by
  have hemp : gs.groups.isEmpty = false := by
    cases h : gs.groups with
    | nil => exact absurd h hne
    | cons a l => rfl
  simp only [IsDNSQueryWhitelisted, hemp]
  cases ha : gs.groups.find? (fun G => G.allows domain ip) with
  | some G =>
    have h1 := List.find?_some ha
    have h2 : G ∈ gs.groups := List.mem_of_find?_eq_some ha
    simp only [Bool.false_eq_true, if_false, true_iff]
    exact ⟨G, h2, (group.allows_iff G domain ip).mp h1⟩
  | none =>
    simp only [Bool.false_eq_true, if_false, false_iff]
    rintro ⟨G, hG, hin⟩
    have := List.find?_eq_none.mp ha G hG
    exact this ((group.allows_iff G domain ip).mpr hin)

/-- The rule of section 4.1, as `IsDNSQueryWhitelisted` models it, does not
pass `TestGroups`. -/
theorem TestGroups_fails_on_the_spec_rule : TestGroups IsDNSQueryWhitelisted = false := by
  decide

/-- The procedure `testedRule` passes `TestGroups`. -/
theorem TestGroups_testedRule : TestGroups testedRule = true := by decide

/-- The model of `IsDNSQueryWhitelisted` passes `TestEmptyGroup`. -/
theorem TestEmptyGroup_passes : TestEmptyGroup IsDNSQueryWhitelisted = true := by decide

/-- The groups of the case `include in one group then exclude in next group`
parse to `includeThenExclude`. -/
theorem addAll_includeThenExclude :
    addAll New
      [{ Name := "private network 1", Includes := ["10.0.0.0/8"] },
       { Name := "private network 2", Includes := ["10.1.0.0/16"],
         Excludes := ["10.1.1.0/24"] }] = Except.ok includeThenExclude := by rfl

/-- Every decision procedure that passes `TestGroups` denies the query for
`a` from `10.1.1.0` on the groups of the case `include in one group then
exclude in next group`, and allows the one from `10.1.0.0`. -/
theorem TestGroups_includeThenExclude (f : Option Groups → String → IP → String × Bool)
    (h : TestGroups f = true) :
    (f (some includeThenExclude) "a" (IPv4 10 1 0 0)).2 = true ∧
    (f (some includeThenExclude) "a" (IPv4 10 1 1 0)).2 = false := by
  have h4 := List.all_eq_true.mp h
    { name := "include in one group then exclude in next group"
      groups := [{ Name := "private network 1", Includes := ["10.0.0.0/8"] },
                 { Name := "private network 2", Includes := ["10.1.0.0/16"],
                   Excludes := ["10.1.1.0/24"] }]
      domains := ["a", "a"]
      ips := [IPv4 10 1 0 0, IPv4 10 1 1 0]
      expected := [true, false] }
    (by simp [testsGroups])
  simp only [addAll_includeThenExclude] at h4
  simpa using h4

/-- Every decision procedure that passes `TestGroups` gives, on each query of
the test, the result the test expects. -/
theorem TestGroups_testQueries (f : Option Groups → String → IP → String × Bool)
    (h : TestGroups f = true) :
    ∀ q ∈ testQueries, (f (some q.1) q.2.1 q.2.2.1).2 = q.2.2.2 := by
  intro q hq
  obtain ⟨tt, htt, hq⟩ := List.mem_flatMap.mp hq
  have hall := List.all_eq_true.mp h tt htt
  cases hadd : addAll New tt.groups with
  | error err =>
    rw [hadd] at hq
    cases hq
  | ok g =>
    rw [hadd] at hq hall
    obtain ⟨r, hr, rfl⟩ := List.mem_map.mp hq
    have := List.all_eq_true.mp hall r hr
    simpa using this

/-- On every query of `TestGroups` but `deniedQuery` the group set is
non-empty and the expected result is the decision of section 4.1. -/
theorem testQueries_follow_the_spec_rule :
    ∀ q ∈ testQueries, q ≠ deniedQuery →
      q.1.groups ≠ [] ∧ q.2.2.2 = (IsDNSQueryWhitelisted (some q.1) q.2.1 q.2.2.1).2 := by
  decide

/-- The some-group rule contradicts `TestGroups`: no decision procedure passes the
test and allows a query exactly when some group includes the source IP, does
not exclude it and does not list the domain. -/
theorem TestGroups_refutes_some_group_rule (f : Option Groups → String → IP → String × Bool)
    (h : TestGroups f = true) :
    ¬ (∀ (gs : Groups) (domain : String) (ip : IP), gs.groups ≠ [] →
        ((f (some gs) domain ip).2 = true ↔ ∃ G ∈ gs.groups, G.inScope domain ip)) := by
  intro hall
  have hfalse := (TestGroups_includeThenExclude f h).2
  have hin : ∃ G ∈ includeThenExclude.groups, G.inScope "a" (IPv4 10 1 1 0) :=
    ⟨_, List.mem_cons_self _ _, (group.allows_iff _ _ _).mp (by decide)⟩
  have htrue := (hall includeThenExclude "a" (IPv4 10 1 1 0) (by decide)).mpr hin
  rw [hfalse] at htrue
  exact Bool.noConfusion htrue

/-- C1: an empty or absent scope group set allows every DNS query.
`IsDNSQueryWhitelisted` returns true for every domain and source IP on a nil
`Groups` and on `groups.New()` with no group added, `createGroups` returns a
nil group set for a configuration with zero groups, and `shouldSendPacket`
returns true for every packet when the executor's group set is nil. -/
theorem empty_scope_allows_every_query :
    (∀ (domain : String) (ip : IP), (IsDNSQueryWhitelisted none domain ip).2 = true) ∧
    (∀ (domain : String) (ip : IP), (IsDNSQueryWhitelisted (some New) domain ip).2 = true) ∧
    (∀ cfg : Config,
      createGroups { cfg with ScopeConfig := { Groups := [] } } = Except.ok none) ∧
    (∀ (e : Executor) (p : Packet), ({ e with groups := none }).shouldSendPacket p = true) := by
  refine ⟨fun _ _ => rfl, fun _ _ => rfl, fun _ => rfl, fun _ _ => rfl⟩

/-- C2, as stated, fails on the repository's test. With G1 including
`10.0.0.0/8` and G2 including `10.1.0.0/16` but excluding `10.1.1.0/24`, G1
includes `10.1.1.0`, excludes nothing and lists no domain, yet `TestGroups`
expects the query for `a` from `10.1.1.0` to be denied: no decision procedure
passes the test and allows that query, and none passes the test and allows a
query exactly when some group includes the source IP, does not exclude it and
does not list the domain. -/
theorem some_group_rule_counterexample :
    includeThenExclude.groups ≠ [] ∧
    (∃ G ∈ includeThenExclude.groups, G.inScope "a" (IPv4 10 1 1 0)) ∧
    deniedQuery ∈ testQueries ∧
    (¬ ∃ f : Option Groups → String → IP → String × Bool,
      TestGroups f = true ∧ (f (some includeThenExclude) "a" (IPv4 10 1 1 0)).2 = true) ∧
    ¬ ∃ f : Option Groups → String → IP → String × Bool,
      TestGroups f = true ∧
        ∀ (gs : Groups) (domain : String) (ip : IP), gs.groups ≠ [] →
          ((f (some gs) domain ip).2 = true ↔ ∃ G ∈ gs.groups, G.inScope domain ip) := by
  refine ⟨by decide, ⟨_, List.mem_cons_self _ _, (group.allows_iff _ _ _).mp (by decide)⟩,
    by decide, ?_, ?_⟩
  · rintro ⟨f, hf, htrue⟩
    rw [(TestGroups_includeThenExclude f hf).2] at htrue
    exact Bool.noConfusion htrue
  · rintro ⟨f, hf, hall⟩
    exact TestGroups_refutes_some_group_rule f hf hall

/-- C2, amended to what the test decides: for every decision procedure that
passes `TestGroups`, on every query of the test other than `a` from
`10.1.1.0` against the groups G1 (includes `10.0.0.0/8`) and G2 (includes
`10.1.0.0/16`, excludes `10.1.1.0/24`), the group set is non-empty and the
query is allowed iff some group includes the source IP, does not exclude it
and does not list the domain; that one query is denied although G1 includes
the address, excludes nothing and lists no domain. -/
theorem tested_decisions (f : Option Groups → String → IP → String × Bool)
    (h : TestGroups f = true) :
    (∀ q ∈ testQueries, q ≠ deniedQuery →
      q.1.groups ≠ [] ∧
        ((f (some q.1) q.2.1 q.2.2.1).2 = true ↔ ∃ G ∈ q.1.groups, G.inScope q.2.1 q.2.2.1)) ∧
    deniedQuery ∈ testQueries ∧
    (f (some includeThenExclude) "a" (IPv4 10 1 1 0)).2 = false ∧
    ∃ G ∈ includeThenExclude.groups, G.inScope "a" (IPv4 10 1 1 0) := by
  refine ⟨?_, by decide, (TestGroups_includeThenExclude f h).2,
    ⟨_, List.mem_cons_self _ _, (group.allows_iff _ _ _).mp (by decide)⟩⟩
  intro q hq hne
  obtain ⟨hgs, hspec⟩ := testQueries_follow_the_spec_rule q hq hne
  refine ⟨hgs, ?_⟩
  rw [TestGroups_testQueries f h q hq, hspec]
  exact IsDNSQueryWhitelisted_some q.1 q.2.1 q.2.2.1 hgs

/-- The amended C2 at `testedRule`, which passes `TestGroups`: it denies the
query for `a` from `10.1.1.0`, and allows the one from `10.1.0.0`, a query of
the test, through a group in scope. -/
theorem tested_decisions_witness :
    TestGroups testedRule = true ∧
    (testedRule (some includeThenExclude) "a" (IPv4 10 1 1 0)).2 = false ∧
    ((testedRule (some includeThenExclude) "a" (IPv4 10 1 0 0)).2 = true ↔
      ∃ G ∈ includeThenExclude.groups, G.inScope "a" (IPv4 10 1 0 0)) :=
  ⟨by decide, (tested_decisions testedRule (by decide)).2.2.1,
    ((tested_decisions testedRule (by decide)).1
      (includeThenExclude, "a", IPv4 10 1 0 0, true) (by decide) (by decide)).2⟩

/-! ## Facts about the executor -/

theorem foldl_AddQuery (packets : List Packet) (qr : QueriesRequest) :
    packets.foldl (fun qr p => qr.AddQuery p.ToRequestQuery) qr =
      { queries := qr.queries ++ packets.map Packet.ToRequestQuery } := by
  induction packets generalizing qr with
  | nil => simp
  | cons p rest ih =>
    rw [List.foldl_cons, ih]
    simp [QueriesRequest.AddQuery]

/-- The request built by `dnsPacketsToQueries` holds the query of each packet,
once, in the order of the packets. -/
theorem dnsPacketsToQueries_eq (packets : List Packet) :
    dnsPacketsToQueries packets = { queries := packets.map Packet.ToRequestQuery } := by
  simp [dnsPacketsToQueries, foldl_AddQuery, NewQueriesRequest]

/-- On an empty buffer `sendPackets` changes nothing. -/
theorem sendPacketsWith_empty (w : World) (concurrent : List Packet) (e : Executor)
    (h : e.buf.packets = []) : e.sendPacketsWith w concurrent = e := by
  obtain ⟨c, cfg, ep, ew, groups, ⟨packets⟩, dw, sn, tk, sp, ar⟩ := e
  simp only at h
  subst h
  simp [Executor.sendPacketsWith, PacketBuffer.Packets]

/-- The state after `sendPackets` when the API call succeeds. -/
theorem sendPacketsWith_delivered (w : World) (concurrent : List Packet) (e : Executor)
    (resp : QueriesResponse) (hne : e.buf.packets ≠ [])
    (hapi : w.Queries e.c.posted.length (dnsPacketsToQueries e.buf.packets) = Except.ok resp) :
    e.sendPacketsWith w concurrent =
      { e with
        c := { posted := e.c.posted ++ [dnsPacketsToQueries e.buf.packets],
               delivered := e.c.delivered ++ [dnsPacketsToQueries e.buf.packets] },
        buf := { packets := concurrent } } := by
  have hlen : e.buf.packets.length ≠ 0 := by simpa using hne
  simp [Executor.sendPacketsWith, PacketBuffer.Packets, PacketBuffer.Write, hlen, hapi]

/-- The state after `sendPackets` when the API call fails and there is no
spill writer. -/
theorem sendPacketsWith_no_writer (w : World) (concurrent : List Packet) (e : Executor)
    (msg : String) (hne : e.buf.packets ≠ [])
    (hapi : w.Queries e.c.posted.length (dnsPacketsToQueries e.buf.packets) = Except.error msg)
    (hw : e.dnsWriter = none) :
    e.sendPacketsWith w concurrent =
      { e with
        c := { e.c with posted := e.c.posted ++ [dnsPacketsToQueries e.buf.packets] },
        buf := { packets := concurrent ++ e.buf.packets } } := by
  have hlen : e.buf.packets.length ≠ 0 := by simpa using hne
  simp [Executor.sendPacketsWith, PacketBuffer.Packets, PacketBuffer.Write, hlen, hapi, hw]

/-- The state after `sendPackets` when the API call fails and the write of
the spill writer fails too. -/
theorem sendPacketsWith_write_failed (w : World) (concurrent : List Packet) (e : Executor)
    (msg err : String) (wr : Writer) (hne : e.buf.packets ≠ [])
    (hapi : w.Queries e.c.posted.length (dnsPacketsToQueries e.buf.packets) = Except.error msg)
    (hw : e.dnsWriter = some wr)
    (hwrite : w.Write wr.handed.length e.buf.packets = some err) :
    e.sendPacketsWith w concurrent =
      { e with
        c := { e.c with posted := e.c.posted ++ [dnsPacketsToQueries e.buf.packets] },
        dnsWriter := some { wr with handed := wr.handed ++ [e.buf.packets] },
        buf := { packets := concurrent ++ e.buf.packets } } := by
  have hlen : e.buf.packets.length ≠ 0 := by simpa using hne
  simp [Executor.sendPacketsWith, PacketBuffer.Packets, PacketBuffer.Write, hlen, hapi, hw,
    hwrite]

/-- The state after `sendPackets` when the API call fails and the spill
writer writes the batch. -/
theorem sendPacketsWith_spilled (w : World) (concurrent : List Packet) (e : Executor)
    (msg : String) (wr : Writer) (hne : e.buf.packets ≠ [])
    (hapi : w.Queries e.c.posted.length (dnsPacketsToQueries e.buf.packets) = Except.error msg)
    (hw : e.dnsWriter = some wr)
    (hwrite : w.Write wr.handed.length e.buf.packets = none) :
    e.sendPacketsWith w concurrent =
      { e with
        c := { e.c with posted := e.c.posted ++ [dnsPacketsToQueries e.buf.packets] },
        dnsWriter := some { wr with handed := wr.handed ++ [e.buf.packets],
                                    lines := wr.lines ++ e.buf.packets },
        buf := { packets := concurrent } } := by
  have hlen : e.buf.packets.length ≠ 0 := by simpa using hne
  simp [Executor.sendPacketsWith, PacketBuffer.Packets, PacketBuffer.Write, hlen, hapi, hw,
    hwrite]

/-- C4: `sendPackets` never silently drops a packet. For every buffer
content, every API outcome, every spill-writer state and whatever other
goroutines write meanwhile, each packet that was in the buffer before the
call is, after it, in the batch posted to the API with a successful response,
or in the batch the spill writer wrote successfully, or in the buffer
again. -/
theorem sendPackets_never_drops (w : World) (concurrent : List Packet) (e : Executor)
    (p : Packet) (hp : p ∈ e.buf.packets) :
    (∃ req resp, w.Queries e.c.posted.length req = Except.ok resp ∧
        (e.sendPacketsWith w concurrent).c.posted = e.c.posted ++ [req] ∧
        (e.sendPacketsWith w concurrent).c.delivered = e.c.delivered ++ [req] ∧
        p.ToRequestQuery ∈ req.queries) ∨
    (∃ wr batch, e.dnsWriter = some wr ∧ w.Write wr.handed.length batch = none ∧
        (e.sendPacketsWith w concurrent).dnsWriter =
          some { wr with handed := wr.handed ++ [batch], lines := wr.lines ++ batch } ∧
        p ∈ batch) ∨
    p ∈ (e.sendPacketsWith w concurrent).buf.packets := by
  have hne : e.buf.packets ≠ [] := List.ne_nil_of_mem hp
  cases hapi : w.Queries e.c.posted.length (dnsPacketsToQueries e.buf.packets) with
  | ok resp =>
    left
    refine ⟨dnsPacketsToQueries e.buf.packets, resp, hapi, ?_, ?_, ?_⟩
    · rw [sendPacketsWith_delivered w concurrent e resp hne hapi]
    · rw [sendPacketsWith_delivered w concurrent e resp hne hapi]
    · rw [dnsPacketsToQueries_eq]
      exact List.mem_map_of_mem _ hp
  | error msg =>
    right
    cases hw : e.dnsWriter with
    | none =>
      right
      rw [sendPacketsWith_no_writer w concurrent e msg hne hapi hw]
      exact List.mem_append_right _ hp
    | some wr =>
      cases hwrite : w.Write wr.handed.length e.buf.packets with
      | none =>
        left
        refine ⟨wr, e.buf.packets, rfl, hwrite, ?_, hp⟩
        rw [sendPacketsWith_spilled w concurrent e msg wr hne hapi hw hwrite]
      | some err =>
        right
        rw [sendPacketsWith_write_failed w concurrent e msg err wr hne hapi hw hwrite]
        exact List.mem_append_right _ hp

/-- C4 at five buffered packets, a failing API and a spill writer whose write
fails: the third packet is buffered before the call and is delivered, spilled
or buffered after it. -/
theorem sendPackets_never_drops_witness :
    pkt 3 ∈ spillExecutor.buf.packets ∧
    ((∃ req resp, (world false false [] 0).Queries spillExecutor.c.posted.length req
          = Except.ok resp ∧
        (spillExecutor.sendPacketsWith (world false false [] 0) []).c.posted
          = spillExecutor.c.posted ++ [req] ∧
        (spillExecutor.sendPacketsWith (world false false [] 0) []).c.delivered
          = spillExecutor.c.delivered ++ [req] ∧
        (pkt 3).ToRequestQuery ∈ req.queries) ∨
      (∃ wr batch, spillExecutor.dnsWriter = some wr ∧
        (world false false [] 0).Write wr.handed.length batch = none ∧
        (spillExecutor.sendPacketsWith (world false false [] 0) []).dnsWriter =
          some { wr with handed := wr.handed ++ [batch], lines := wr.lines ++ batch } ∧
        pkt 3 ∈ batch) ∨
      pkt 3 ∈ (spillExecutor.sendPacketsWith (world false false [] 0) []).buf.packets) :=
  ⟨by decide, sendPackets_never_drops (world false false [] 0) [] spillExecutor (pkt 3) (by decide)⟩

/-- C5: for every non-empty batch drained by `sendPackets`, if the API call
fails and either no spill writer is configured or the spill write returns an
error, the whole batch is appended back to the buffer in its original order,
after what other goroutines wrote meanwhile; with no concurrent writer the
buffer after the call equals the buffer before the call. -/
theorem failed_batch_is_written_back (w : World) (concurrent : List Packet) (e : Executor)
    (msg : String) (hne : e.buf.packets ≠ [])
    (hapi : w.Queries e.c.posted.length (dnsPacketsToQueries e.buf.packets) = Except.error msg)
    (hspill : e.dnsWriter = none ∨
      ∃ wr err, e.dnsWriter = some wr ∧ w.Write wr.handed.length e.buf.packets = some err) :
    (e.sendPacketsWith w concurrent).buf.packets = concurrent ++ e.buf.packets ∧
    (e.sendPackets w).buf.packets = e.buf.packets ∧
    (e.sendPackets w).buf = e.buf := by
  rcases hspill with hw | ⟨wr, err, hw, hwrite⟩
  · rw [Executor.sendPackets, sendPacketsWith_no_writer w concurrent e msg hne hapi hw,
      sendPacketsWith_no_writer w [] e msg hne hapi hw]
    simp
  · rw [Executor.sendPackets,
      sendPacketsWith_write_failed w concurrent e msg err wr hne hapi hw hwrite,
      sendPacketsWith_write_failed w [] e msg err wr hne hapi hw hwrite]
    simp

/-- C5 at five buffered packets, a failing API and no spill writer: the
buffer still holds the five packets after the call. -/
theorem failed_batch_is_written_back_witness :
    (executor (config 10 "") fivePackets none).buf.packets.length = 5 ∧
    ((executor (config 10 "") fivePackets none).sendPackets (world false true [] 0)).buf.packets
      = fivePackets :=
  ⟨by decide,
    (failed_batch_is_written_back (world false true [] 0) []
      (executor (config 10 "") fivePackets none) "500 Internal Server Error"
      (by decide) rfl (Or.inl rfl)).2.1⟩

/-- C6: for every non-empty batch drained by `sendPackets`, if the API call
fails, a spill writer is configured and its write succeeds, then exactly that
batch, all its packets once and in buffer order, is handed to the spill
writer and written, and none of it is written back to the buffer: the buffer
holds what other goroutines wrote meanwhile, and is empty with no concurrent
writer. -/
theorem failed_batch_is_spilled (w : World) (concurrent : List Packet) (e : Executor)
    (msg : String) (wr : Writer) (hne : e.buf.packets ≠ [])
    (hapi : w.Queries e.c.posted.length (dnsPacketsToQueries e.buf.packets) = Except.error msg)
    (hw : e.dnsWriter = some wr)
    (hwrite : w.Write wr.handed.length e.buf.packets = none) :
    (e.sendPacketsWith w concurrent).dnsWriter =
      some { wr with handed := wr.handed ++ [e.buf.packets],
                     lines := wr.lines ++ e.buf.packets } ∧
    (e.sendPacketsWith w concurrent).buf.packets = concurrent ∧
    (e.sendPackets w).buf.packets = [] := by
  rw [Executor.sendPackets, sendPacketsWith_spilled w concurrent e msg wr hne hapi hw hwrite,
    sendPacketsWith_spilled w [] e msg wr hne hapi hw hwrite]
  simp

/-- C6 at a batch of five, a failing API and a spill writer that writes: five
records are spilled and the buffer has length 0. -/
theorem failed_batch_is_spilled_witness :
    (((executor (config 10 "failed.json") fivePackets
        (some (openWriter "failed.json"))).sendPackets (world false true [] 0)).dnsWriter.map
          fun wr => wr.lines.length) = some 5 ∧
    ((executor (config 10 "failed.json") fivePackets
        (some (openWriter "failed.json"))).sendPackets
          (world false true [] 0)).buf.packets.length = 0 := by
  have h := failed_batch_is_spilled (world false true [] 0) []
    (executor (config 10 "failed.json") fivePackets (some (openWriter "failed.json")))
    "500 Internal Server Error" (openWriter "failed.json") (by decide) rfl rfl rfl
  refine ⟨?_, ?_⟩
  · rw [Executor.sendPackets, h.1]
    rfl
  · rw [h.2.2]
    rfl

/-- C7: when the buffer is empty, `sendPackets` makes no API call, hands
nothing to the spill writer and leaves the buffer empty, for every executor
and whatever the collaborators would answer: the executor is unchanged. -/
theorem sendPackets_on_empty_buffer (w : World) (concurrent : List Packet) (e : Executor)
    (h : e.buf.packets = []) :
    (e.sendPacketsWith w concurrent).c.posted = e.c.posted ∧
    (e.sendPacketsWith w concurrent).dnsWriter = e.dnsWriter ∧
    (e.sendPacketsWith w concurrent).buf.packets = [] ∧
    e.sendPacketsWith w concurrent = e ∧
    e.sendPackets w = e := by
  rw [Executor.sendPackets, sendPacketsWith_empty w concurrent e h, sendPacketsWith_empty w [] e h]
  exact ⟨rfl, rfl, h, rfl, rfl⟩

/-- C7 at an executor with an empty buffer and a spill writer, with an API
that would fail: nothing is posted and nothing is handed to the writer. -/
theorem sendPackets_on_empty_buffer_witness :
    (executor (config 10 "failed.json") [] (some (openWriter "failed.json"))).buf.packets = [] ∧
    ((executor (config 10 "failed.json") [] (some (openWriter "failed.json"))).sendPackets
      (world false true [] 0)).c.posted = [] ∧
    ((executor (config 10 "failed.json") [] (some (openWriter "failed.json"))).sendPackets
      (world false true [] 0)).dnsWriter = some (openWriter "failed.json") := by
  have h := sendPackets_on_empty_buffer (world false true [] 0) []
    (executor (config 10 "failed.json") [] (some (openWriter "failed.json"))) rfl
  exact ⟨rfl, by rw [h.2.2.2.2]; rfl, by rw [h.2.2.2.2]; rfl⟩

theorem doIter_buf (x : Executor) (p : Packet) :
    (x.doIter p).1.buf.packets =
      if x.shouldSendPacket p then x.buf.packets ++ [p] else x.buf.packets := by
  unfold Executor.doIter Executor.writePacket PacketBuffer.Write
  cases h : x.shouldSendPacket p <;> simp
  split <;> rfl

theorem doIter_skip (x : Executor) (p : Packet) (h : x.shouldSendPacket p = false) :
    x.doIter p = (x, false) := by
  simp [Executor.doIter, h]

theorem doIter_below (x : Executor) (p : Packet) (h : x.shouldSendPacket p = true)
    (hlt : ((x.buf.packets.length + 1 : Nat) : Int) < x.cfg.Queries.BufferSize) :
    x.doIter p = ({ x with buf := { packets := x.buf.packets ++ [p] } }, false) := by
  simp only [Executor.doIter, h, Executor.writePacket, PacketBuffer.Write]
  simp
  push_cast at hlt
  exact hlt

theorem doIter_reached (x : Executor) (p : Packet) (h : x.shouldSendPacket p = true)
    (hge : x.cfg.Queries.BufferSize ≤ ((x.buf.packets.length + 1 : Nat) : Int)) :
    x.doIter p =
      ({ x with buf := { packets := x.buf.packets ++ [p] }, spawned := x.spawned + 1 }, true) := by
  simp only [Executor.doIter, h, Executor.writePacket, PacketBuffer.Write]
  simp
  push_cast at hge
  exact hge

theorem concurrentRuns_none (w : World) (x : Executor) (i : Nat)
    (hrun : x.spawned = x.asyncRuns) (htick : x.ticker = false ∨ ∀ i, w.sched i = 0) :
    x.concurrentRuns w i = 0 := by
  unfold Executor.concurrentRuns
  rcases htick with h | h
  · simp [h, hrun]
  · simp [h]

theorem doLoop_without_flush (w : World) (src : List Packet) :
    ∀ (x : Executor) (i : Nat), x.spawned = x.asyncRuns →
      (x.ticker = false ∨ ∀ i, w.sched i = 0) →
      ((x.buf.packets.length + (src.filter x.shouldSendPacket).length : Nat) : Int)
        < x.cfg.Queries.BufferSize →
      x.doLoop w i src =
        { x with buf := { packets := x.buf.packets ++ src.filter x.shouldSendPacket } } := by
  induction src with
  | nil =>
    intro x i _ _ _
    simp [Executor.doLoop]
  | cons p rest ih =>
    intro x i hrun htick hlt
    cases hp : x.shouldSendPacket p with
    | false =>
      have hf : (p :: rest).filter x.shouldSendPacket = rest.filter x.shouldSendPacket := by
        simp [List.filter_cons, hp]
      rw [hf] at hlt ⊢
      simp only [Executor.doLoop, doIter_skip x p hp, concurrentRuns_none w x i hrun htick,
        Executor.runConcurrent]
      exact ih x (i + 1) hrun htick hlt
    | true =>
      have hf : (p :: rest).filter x.shouldSendPacket = p :: rest.filter x.shouldSendPacket := by
        simp [List.filter_cons, hp]
      rw [hf] at hlt ⊢
      have hlt1 : ((x.buf.packets.length + 1 : Nat) : Int) < x.cfg.Queries.BufferSize := by
        simp only [List.length_cons] at hlt
        omega
      have hstep := doIter_below x p hp hlt1
      simp only [Executor.doLoop, hstep]
      rw [concurrentRuns_none w
        { x with buf := { packets := x.buf.packets ++ [p] } } i hrun htick]
      simp only [Executor.runConcurrent]
      have := ih { x with buf := { packets := x.buf.packets ++ [p] } } (i + 1) hrun htick
        (by
          show (((x.buf.packets ++ [p]).length + (rest.filter x.shouldSendPacket).length : Nat) : Int)
            < x.cfg.Queries.BufferSize
          simp only [List.length_cons, List.length_append, List.length_nil] at hlt ⊢
          omega)
      rw [this]
      show ({ x with buf := { packets := (x.buf.packets ++ [p]) ++ rest.filter x.shouldSendPacket } } : Executor) = _
      simp

/-- A call of `sendPackets` on a non-empty buffer posts the drained batch,
whatever the reply. -/
theorem sendPacketsWith_posted (w : World) (concurrent : List Packet) (e : Executor)
    (hne : e.buf.packets ≠ []) :
    (e.sendPacketsWith w concurrent).c.posted =
      e.c.posted ++ [dnsPacketsToQueries e.buf.packets] := by
  cases hapi : w.Queries e.c.posted.length (dnsPacketsToQueries e.buf.packets) with
  | ok resp => rw [sendPacketsWith_delivered w concurrent e resp hne hapi]
  | error msg =>
    cases hw : e.dnsWriter with
    | none => rw [sendPacketsWith_no_writer w concurrent e msg hne hapi hw]
    | some wr =>
      cases hwrite : w.Write wr.handed.length e.buf.packets with
      | none => rw [sendPacketsWith_spilled w concurrent e msg wr hne hapi hw hwrite]
      | some err => rw [sendPacketsWith_write_failed w concurrent e msg err wr hne hapi hw hwrite]

/-- Without a spill writer `sendPackets` leaves the executor without one. -/
theorem sendPacketsWith_dnsWriter_none (w : World) (concurrent : List Packet) (e : Executor)
    (hw : e.dnsWriter = none) : (e.sendPacketsWith w concurrent).dnsWriter = none := by
  by_cases hne : e.buf.packets = []
  · rw [sendPacketsWith_empty w concurrent e hne]
    exact hw
  · cases hapi : w.Queries e.c.posted.length (dnsPacketsToQueries e.buf.packets) with
    | ok resp =>
      rw [sendPacketsWith_delivered w concurrent e resp hne hapi]
      exact hw
    | error msg =>
      rw [sendPacketsWith_no_writer w concurrent e msg hne hapi hw]
      exact hw

theorem doIter_dnsWriter (x : Executor) (p : Packet) : (x.doIter p).1.dnsWriter = x.dnsWriter := by
  unfold Executor.doIter Executor.writePacket
  cases x.shouldSendPacket p <;> simp
  split <;> rfl

theorem runConcurrent_dnsWriter_none (w : World) (k : Nat) :
    ∀ x : Executor, x.dnsWriter = none → (Executor.runConcurrent w k x).dnsWriter = none := by
  induction k with
  | zero => intro x h; exact h
  | succ k ih =>
    intro x h
    simp only [Executor.runConcurrent]
    exact ih _ (sendPacketsWith_dnsWriter_none w [] x h)

theorem doLoop_dnsWriter_none (w : World) (src : List Packet) :
    ∀ (x : Executor) (i : Nat), x.dnsWriter = none → (x.doLoop w i src).dnsWriter = none := by
  induction src with
  | nil => intro x i h; exact h
  | cons p rest ih =>
    intro x i h
    simp only [Executor.doLoop]
    exact ih _ _ (runConcurrent_dnsWriter_none w _ _ ((doIter_dnsWriter x p).trans h))

theorem do_dnsWriter_none (w : World) (x : Executor) (h : x.dnsWriter = none) :
    (x.do_ w).1.dnsWriter = none := by
  unfold Executor.do_
  cases hs : x.sniffer with
  | none => exact h
  | some s => exact sendPacketsWith_dnsWriter_none w [] _ (doLoop_dnsWriter_none w _ x 0 h)

/-- The method `Send` builds no spill writer: an executor without one, as
`New` returns it, has none after `Send`, whatever `Queries.Failed.File`
says. -/
theorem Send_dnsWriter_none (w : World) (e : Executor) (file fileFomrat : String)
    (h : e.dnsWriter = none) : (e.Send w file fileFomrat).1.dnsWriter = none := by
  unfold Executor.Send
  simp only
  split
  · exact h
  · exact do_dnsWriter_none w _ h

/-- The executor `New` returns has no spill writer. -/
theorem New_dnsWriter_none (w : World) (c : Client) (cfg : Config) (e : Executor)
    (h : Executor.New w c cfg = Except.ok e) : e.dnsWriter = none := by
  unfold Executor.New at h
  split at h
  · cases h
  · cases h
  · split at h
    · cases h
    · split at h
      · cases h
      · cases h
        rfl

/-- C8 fails on `Send`: with `Queries.Failed.File` set to `failed.json`, a
source of one packet and an API that answers with an error, `Send` on the
executor `New` returns ends with a nil error, no spill writer and the packet
written back to the buffer; `Start` on the same executor builds the writer
and the packet is spilled. -/
theorem Send_builds_no_spill_writer :
    Executor.New (world false true [pkt 1] 0) { posted := [], delivered := [] }
        (config 10 "failed.json")
      = Except.ok (executor (config 10 "failed.json") [] none) ∧
    (config 10 "failed.json").Queries.Failed.File ≠ "" ∧
    ((executor (config 10 "failed.json") [] none).Send (world false true [pkt 1] 0)
        "queries.pcap" "pcap").2 = Exit.nil ∧
    ((executor (config 10 "failed.json") [] none).Send (world false true [pkt 1] 0)
        "queries.pcap" "pcap").1.dnsWriter = none ∧
    ((executor (config 10 "failed.json") [] none).Send (world false true [pkt 1] 0)
        "queries.pcap" "pcap").1.buf.packets = [pkt 1] ∧
    ((executor (config 10 "failed.json") [] none).Start (world false true [pkt 1] 0)).1.dnsWriter
      = some { file := "failed.json", handed := [[pkt 1]], lines := [pkt 1] } ∧
    ((executor (config 10 "failed.json") [] none).Start
        (world false true [pkt 1] 0)).1.buf.packets = [] := by
  refine ⟨rfl, by decide, by decide, by decide, by decide, by decide, by decide⟩

/-- C9: the loop of `do` writes a packet to the buffer iff `shouldSendPacket`
is true for it. For every finite source, when the buffer is empty at the
start, no goroutine started earlier is waiting, the ticker does not fire and
fewer packets are allowed than `Queries.BufferSize`, no flush runs before the
source ends, the batch drained by the final `sendPackets` is exactly the
subsequence of source packets allowed by the scope check, each once and in
source order, that batch is what is posted, and `do` returns nil. -/
theorem do_sends_the_allowed_packets (w : World) (e : Executor) (src : List Packet)
    (hs : e.sniffer = some { Packets := src })
    (hbuf : e.buf.packets = [])
    (hrun : e.spawned = e.asyncRuns)
    (htick : e.ticker = false ∨ ∀ i, w.sched i = 0)
    (hlt : ((src.filter e.shouldSendPacket).length : Int) < e.cfg.Queries.BufferSize) :
    (∀ (x : Executor) (p : Packet), (x.doIter p).1.buf.packets =
      if x.shouldSendPacket p then x.buf.packets ++ [p] else x.buf.packets) ∧
    (e.doLoop w 0 src).buf.Packets.1 = src.filter e.shouldSendPacket ∧
    (e.doLoop w 0 src).c.posted = e.c.posted ∧
    (e.doLoop w 0 src).spawned = e.spawned ∧
    e.do_ w = ((e.doLoop w 0 src).sendPackets w, Exit.nil) ∧
    (e.do_ w).2 = Exit.nil ∧
    (src.filter e.shouldSendPacket ≠ [] →
      (e.do_ w).1.c.posted =
        e.c.posted ++ [{ queries := (src.filter e.shouldSendPacket).map Packet.ToRequestQuery }]) := by
  have hloop := doLoop_without_flush w src e 0 hrun htick (by
    rw [hbuf]
    simpa using hlt)
  rw [hbuf, List.nil_append] at hloop
  have hdo : e.do_ w = ((e.doLoop w 0 src).sendPackets w, Exit.nil) := by
    simp [Executor.do_, hs]
  refine ⟨doIter_buf, ?_, ?_, ?_, hdo, ?_, ?_⟩
  · rw [hloop]
    rfl
  · rw [hloop]
  · rw [hloop]
  · rw [hdo]
  · intro hne
    rw [hdo]
    show ((e.doLoop w 0 src).sendPacketsWith w []).c.posted = _
    rw [sendPacketsWith_posted w [] _ (by rw [hloop]; exact hne), hloop, dnsPacketsToQueries_eq]

/-- C9 at a source of three packets, a buffer size of 10 and no scope group:
`do` returns nil and the one request posted holds the three queries in source
order. -/
theorem do_sends_the_allowed_packets_witness :
    (({ executor (config 10 "") [] none with
          sniffer := some { Packets := [pkt 1, pkt 2, pkt 3] } } : Executor).do_
        (world true true [] 0)).2 = Exit.nil ∧
    (({ executor (config 10 "") [] none with
          sniffer := some { Packets := [pkt 1, pkt 2, pkt 3] } } : Executor).do_
        (world true true [] 0)).1.c.posted =
      [{ queries := [(pkt 1).ToRequestQuery, (pkt 2).ToRequestQuery, (pkt 3).ToRequestQuery] }] := by
  have h := do_sends_the_allowed_packets (world true true [] 0)
    { executor (config 10 "") [] none with sniffer := some { Packets := [pkt 1, pkt 2, pkt 3] } }
    [pkt 1, pkt 2, pkt 3] rfl rfl rfl (Or.inl rfl) (by decide)
  exact ⟨h.2.2.2.2.2.1, h.2.2.2.2.2.2 (by decide)⟩

/-- C10: the size trigger of `do`. For every packet, `go e.sendPackets()` is
reached exactly when the packet is allowed and the length returned by its
write is greater than or equal to `Queries.BufferSize`; that length is the
buffer length before plus one. With `BufferSize` 3 and three allowed packets
written to an empty buffer, the first two writes trigger no flush, the third
does, and after that flush with a successful API call the buffer length is
0. -/
theorem size_trigger (w : World) (e : Executor) (p1 p2 p3 : Packet) (resp : QueriesResponse)
    (hbuf : e.buf.packets = [])
    (hsize : e.cfg.Queries.BufferSize = 3)
    (h1 : e.shouldSendPacket p1 = true)
    (h2 : e.shouldSendPacket p2 = true)
    (h3 : e.shouldSendPacket p3 = true)
    (hapi : w.Queries e.c.posted.length (dnsPacketsToQueries [p1, p2, p3]) = Except.ok resp) :
    (∀ (x : Executor) (p : Packet),
      ((x.doIter p).2 = true ↔
        x.shouldSendPacket p = true ∧
          x.cfg.Queries.BufferSize ≤ ((x.writePacket p).1.2 : Int)) ∧
      (x.writePacket p).1.2 = x.buf.packets.length + 1 ∧
      (x.doIter p).1.spawned = x.spawned + (if (x.doIter p).2 then 1 else 0)) ∧
    (e.doIter p1).2 = false ∧
    ((e.doIter p1).1.doIter p2).2 = false ∧
    (((e.doIter p1).1.doIter p2).1.doIter p3).2 = true ∧
    ((((e.doIter p1).1.doIter p2).1.doIter p3).1.sendPackets w).buf.packets.length = 0 := by
  have hgen : ∀ (x : Executor) (p : Packet),
      ((x.doIter p).2 = true ↔
        x.shouldSendPacket p = true ∧
          x.cfg.Queries.BufferSize ≤ ((x.writePacket p).1.2 : Int)) ∧
      (x.writePacket p).1.2 = x.buf.packets.length + 1 ∧
      (x.doIter p).1.spawned = x.spawned + (if (x.doIter p).2 then 1 else 0) := by
    intro x p
    have hl : (x.writePacket p).1.2 = x.buf.packets.length + 1 := by
      simp [Executor.writePacket, PacketBuffer.Write]
    refine ⟨?_, hl, ?_⟩
    · rw [hl]
      cases hp : x.shouldSendPacket p with
      | false => simp [doIter_skip x p hp]
      | true =>
        by_cases hlt : ((x.buf.packets.length + 1 : Nat) : Int) < x.cfg.Queries.BufferSize
        · rw [doIter_below x p hp hlt]
          simp
          exact hlt
        · have hge : x.cfg.Queries.BufferSize ≤ ((x.buf.packets.length + 1 : Nat) : Int) :=
            not_lt.mp hlt
          rw [doIter_reached x p hp hge]
          simp
          exact hge
    · cases hp : x.shouldSendPacket p with
      | false => simp [doIter_skip x p hp]
      | true =>
        by_cases hlt : ((x.buf.packets.length + 1 : Nat) : Int) < x.cfg.Queries.BufferSize
        · rw [doIter_below x p hp hlt]
          simp
        · rw [doIter_reached x p hp (not_lt.mp hlt)]
          simp
  have s1 : e.doIter p1 = ({ e with buf := { packets := [p1] } }, false) := by
    rw [doIter_below e p1 h1 (by rw [hbuf, hsize]; decide), hbuf]
    rfl
  have s2 : ({ e with buf := { packets := [p1] } } : Executor).doIter p2 =
      ({ e with buf := { packets := [p1, p2] } }, false) :=
    doIter_below _ p2 h2 (by show ((([p1] : List Packet).length + 1 : Nat) : Int) < _; rw [hsize]; simp)
  have s3 : ({ e with buf := { packets := [p1, p2] } } : Executor).doIter p3 =
      ({ e with buf := { packets := [p1, p2, p3] }, spawned := e.spawned + 1 }, true) :=
    doIter_reached _ p3 h3 (by show _ ≤ ((([p1, p2] : List Packet).length + 1 : Nat) : Int); rw [hsize]; simp)
  refine ⟨hgen, ?_, ?_, ?_, ?_⟩
  · rw [s1]
  · rw [s1, s2]
  · rw [s1, s2, s3]
  · rw [s1, s2, s3, Executor.sendPackets,
      sendPacketsWith_delivered w [] _ resp (by simp) hapi]
    rfl

/-- C10 at `BufferSize` 3, an empty buffer, three packets and an API that
accepts: the third write reaches `go e.sendPackets()`, and the buffer is
empty after the flush. -/
theorem size_trigger_witness :
    (executor (config 3 "") [] none).cfg.Queries.BufferSize = 3 ∧
    ((((executor (config 3 "") [] none).doIter (pkt 1)).1.doIter (pkt 2)).1.doIter (pkt 3)).2
      = true ∧
    (((((executor (config 3 "") [] none).doIter (pkt 1)).1.doIter (pkt 2)).1.doIter
      (pkt 3)).1.sendPackets (world true true [] 0)).buf.packets.length = 0 := by
  have h := size_trigger (world true true [] 0) (executor (config 3 "") [] none)
    (pkt 1) (pkt 2) (pkt 3) { Received := 3, Accepted := 3, Rejected := [] }
    rfl rfl rfl rfl rfl rfl
  exact ⟨rfl, h.2.2.2.1, h.2.2.2.2⟩

end Nfr
